import Mathlib

/-!
A shallow embedding of the storage-coordination core of the
MLp-system-performances-analysis-tool repository (`src/AGI/io/MetricsDataIO.py`
and the SLURM environment handling of `src/AGI.py` / `src/AGI/AGI.py`),
together with theorems settling the specification claims about it.

Modelling conventions:
* the filesystem state visible to the coordinator is a `World`: the database
  file (absent, or present with its tables) and the metadata sidecar file
  (absent, or present with its pickled record);
* numeric cell values are rationals (`ℚ`); the only arithmetic the code
  performs on them (division of small integers by 100) is exact in IEEE
  doubles, so `ℚ` is a faithful model for the claims at issue;
* Python's `dict.get(key, False)` with string values is modelled by
  `Option` plus explicit truthiness (a string is truthy iff nonempty);
* each Python method raising exceptions becomes a function into `Except`
  (or an output record that carries the raised message alongside the state
  mutations already committed before the raise).
-/

namespace AGI

/-- A column of numeric metric values (one value per sample row). -/
abbrev Column := List ℚ

/-- A table: mapping from column name to column data, as in the `tableData`
dict handed to `pd.DataFrame`. -/
abbrev Table := List (String × Column)

/-- One epoch: the `data` dict of `dumpEpoch`, mapping table name to table. -/
abbrev Epoch := List (String × Table)

/-- The tables stored in the SQLite database file, keyed by table name. -/
abbrev DB := List (String × Table)

/-- The pickled metadata record: a Python dict with the two meaningful keys
`dbExists` and `dbError`; `none` models an absent key. -/
structure Metadata where
  dbExists : Option Bool := none
  dbError : Option String := none
  deriving Repr, DecidableEq

/-- The empty dict `{}` assigned to `self.metadata` in `__init__`. -/
def Metadata.empty : Metadata := {}

/-- `self.metadata.get('dbExists', False)`. -/
def Metadata.getDbExists (m : Metadata) : Bool := m.dbExists.getD false

/-- Truthiness of `self.metadata.get('dbError', False)`: an absent key gives
`False`; a present string is truthy iff it is nonempty. -/
def Metadata.dbErrorTruthy (m : Metadata) : Bool :=
  match m.dbError with
  | none => false
  | some s => !(s == "")

/-- The filesystem state for one output path: the database file
(`none` ↔ `os.path.exists(dbFile)` is false) and the metadata sidecar
(`none` ↔ the `.metadata` file does not exist). -/
structure World where
  db : Option DB := none
  metaFile : Option Metadata := none
  deriving Repr, DecidableEq

/-- The constructor parameters of `MetricsDataIO.__init__` (stored on `self`). -/
structure MetricsDataIO where
  dbFile : String
  forceOverwrite : Bool := false
  readOnly : Bool := true
  timeout : Int := 900
  deriving Repr, DecidableEq

/-- The message of the exception raised by the `checkReadOnly` decorator. -/
def roMsg : String := "MetricsDataIO initialized in read-only mode!"

/-- Look a table up by name: the first entry with that name (SQLite table
names are unique, so a database holds at most one entry per name). -/
def getTable : DB → String → Option Table
  | [], _ => none
  | p :: rest, k => if p.1 == k then some p.2 else getTable rest k

/-- `df.to_sql(name, conn, if_exists='replace', ...)`: replace the table of
that exact name if present, otherwise add it. -/
def setTable : DB → String → Table → DB
  | [], n, t => [(n, t)]
  | p :: rest, n, t => if p.1 == n then (n, t) :: rest else p :: setTable rest n t

/-- The per-column normalization of `dumpEpoch`: the `DEV_GPU_UTIL` column is
converted with `astype(float) / 100.0`; every other column is stored as-is. -/
def transformColumn (name : String) (c : Column) : Column :=
  if name == "DEV_GPU_UTIL" then c.map (fun v => v / 100) else c

/-- The DataFrame a table becomes just before `to_sql` writes it. -/
def transformTable (t : Table) : Table :=
  t.map (fun p => (p.1, transformColumn p.1 p.2))

/-- One table write: target table name and the (already normalized) table. -/
abbrev Write := String × Table

/-- The sequence of writes one `dumpEpoch(data, epoch)` call performs:
each table of `data` is written under its name with the suffix appended. -/
def epochWrites (data : Epoch) (epoch : String) : List Write :=
  data.map (fun p => (p.1 ++ epoch, transformTable p.2))

/-- The writes of the `for i, epoch in enumerate(data)` loop of `dump`,
starting the enumeration at index `i`. -/
def epochsWrites : Nat → List Epoch → List Write
  | _, [] => []
  | i, e :: rest => epochWrites e ("_epoch:" ++ toString i) ++ epochsWrites (i + 1) rest

/-- All table writes a `dump(data)` call performs: no epoch means no writes,
a single epoch is written unsuffixed, several epochs get `_epoch:<i>` suffixes. -/
def dumpWrites : List Epoch → List Write
  | [] => []
  | [e] => epochWrites e ""
  | data => epochsWrites 0 data

/-- Apply a sequence of table writes to the database contents in order. -/
def applyWrites (ws : List Write) (db : DB) : DB :=
  ws.foldl (fun d w => setTable d w.1 w.2) db

/-- `MetricsDataIO.dump`: guarded by `checkReadOnly`; an empty epoch list
returns before any connection is opened (the file is not even created);
otherwise `sqlite3.connect` creates the file if needed and the epoch tables
are written into it. -/
def MetricsDataIO.dump (io : MetricsDataIO) (data : List Epoch) (w : World) :
    Except String World :=
  if io.readOnly then .error roMsg
  else if data.length == 0 then .ok w
  else .ok { w with db := some (applyWrites (dumpWrites data) (w.db.getD [])) }

/-- `MetricsDataIO.load`: raises if the database file does not exist, else
returns every table present in the file, keyed by its stored name. -/
def MetricsDataIO.load (io : MetricsDataIO) (w : World) : Except String DB :=
  match w.db with
  | none => .error ("Database file " ++ io.dbFile ++ " does not exist!")
  | some tables => .ok tables

/-- `MetricsDataIO.dumpMetadata`: guarded by `checkReadOnly`; pickles the
in-memory record into the sidecar file (under the file lock). -/
def MetricsDataIO.dumpMetadata (io : MetricsDataIO) (mem : Metadata) (w : World) :
    Except String World :=
  if io.readOnly then .error roMsg
  else .ok { w with metaFile := some mem }

/-- `MetricsDataIO.loadMetadata`: guarded by `checkReadOnly`; if the sidecar
file does not exist it is first created from the in-memory record, then the
sidecar is unpickled into memory. Returns the new in-memory record and world. -/
def MetricsDataIO.loadMetadata (io : MetricsDataIO) (mem : Metadata) (w : World) :
    Except String (Metadata × World) :=
  if io.readOnly then .error roMsg
  else
    match w.metaFile with
    | none => .ok (mem, { w with metaFile := some mem })
    | some r => .ok (r, w)

/-- The `PathConflict` message `checkOutfileExists` commits to the metadata. -/
def conflictMsg (dbFile : String) : String :=
  "Output file " ++ dbFile ++ " already exists! Please specify a different output file or set -f flag."

/-- Outcome of `checkOutfileExists`: the in-memory metadata, the filesystem
state (including mutations committed before a raise), and the raised message
if the method raised. -/
structure COEOut where
  metadata : Metadata
  world : World
  error : Option String
  deriving Repr, DecidableEq

/-- `MetricsDataIO.checkOutfileExists`, the body of the lock-held critical
section (lock acquisition itself is modelled separately, see `FileLock`):
read-only coordinators return immediately; writers load the metadata, replay
any committed `dbError`, and otherwise settle the create/overwrite decision. -/
def MetricsDataIO.checkOutfileExists (io : MetricsDataIO) (mem : Metadata) (w : World) :
    COEOut :=
  if io.readOnly then { metadata := mem, world := w, error := none }
  else
    match io.loadMetadata mem w with
    | .error e => { metadata := mem, world := w, error := some e }
    | .ok (m, w1) =>
      if m.dbErrorTruthy then
        { metadata := m, world := w1, error := some (m.dbError.getD "") }
      else if !m.getDbExists then
        if w1.db.isSome then
          if !io.forceOverwrite then
            let msg := conflictMsg io.dbFile
            let m2 := { m with dbError := some msg }
            { metadata := m2, world := { w1 with metaFile := some m2 }, error := some msg }
          else
            let m2 := { m with dbExists := some true }
            { metadata := m2,
              world := { w1 with db := none, metaFile := some m2 },
              error := none }
        else
          { metadata := m, world := w1, error := none }
      else
        { metadata := m, world := w1, error := none }

/-- `MetricsDataIO.__init__` after storing the parameters: `self.metadata = {}`
followed by `self.checkOutfileExists()`. -/
def MetricsDataIO.init (io : MetricsDataIO) (w : World) : COEOut :=
  io.checkOutfileExists Metadata.empty w

/-- A `filelock.FileLock` object: the lock file path and the default timeout
stored at construction (in seconds; a negative value means wait forever). -/
structure FileLock where
  lockFile : String
  timeout : Int
  deriving Repr, DecidableEq

/-- `filelock.FileLock(path)` constructed without a timeout argument: the
library default timeout is `-1` (block until acquired). -/
def FileLock.mkDefault (path : String) : FileLock :=
  { lockFile := path, timeout := -1 }

/-- Possible outcomes of a lock acquisition attempt. -/
inductive AcquireOutcome where
  | acquired
  | lockTimeout
  | blocksForever
  deriving Repr, DecidableEq

/-- The filelock library contract for `lock.acquire()` called without
arguments, against a lock that is free, respectively held by another process
for the whole wait window: a free lock is acquired; a held lock raises
`Timeout` once the stored timeout (if nonnegative) elapses, and blocks
forever when the stored timeout is negative. -/
def FileLock.acquireOutcome (lk : FileLock) (heldElsewhere : Bool) : AcquireOutcome :=
  if !heldElsewhere then .acquired
  else if lk.timeout < 0 then .blocksForever
  else .lockTimeout

/-- The lock `__init__` builds: `filelock.FileLock(f"{self.dbFile}.lock")`.
The coordinator's `timeout` parameter is not passed to it; `self.timeout` is
only ever used as the `sqlite3.connect` busy timeout in `dumpEpoch`. -/
def MetricsDataIO.mkLock (io : MetricsDataIO) : FileLock :=
  FileLock.mkDefault (io.dbFile ++ ".lock")

/-- The SLURM environment variables `profile` consults, as seen by the
process: `none` models an absent variable (a `KeyError` on access), and the
integer parsing of present values is applied. -/
structure SlurmEnv where
  jobId : Option String := none
  stepGpus : Option (List Int) := none
  procId : Option Int := none
  deriving Repr, DecidableEq

/-- The GPU-selection logic of `profile` (identical in `src/AGI.py` and
`src/AGI/AGI.py`): try `SLURM_JOB_ID` and `SLURM_STEP_GPUS`; on a `KeyError`
fall back to re-reading `SLURM_JOB_ID` and deriving the single GPU id
`SLURM_PROCID % 4` (an uncaught `KeyError` in the fallback is an error). -/
def getJobGpuIds (env : SlurmEnv) : Except String (String × List Int) :=
  match env.jobId, env.stepGpus with
  | some j, some gpus => .ok (j, gpus)
  | _, _ =>
    match env.jobId with
    | none => .error "KeyError: SLURM_JOB_ID"
    | some j =>
      match env.procId with
      | none => .error "KeyError: SLURM_PROCID"
      | some p => .ok (j, [p % 4])

/-- The table write a name `k` last receives in a write sequence, if any. -/
def lastWriteTo : List Write → String → Option Table
  | [], _ => none
  | p :: ws, k =>
    match lastWriteTo ws k with
    | some t => some t
    | none => if p.1 == k then some p.2 else none

theorem getTable_setTable (db : DB) (n : String) (t : Table) (k : String) :
    getTable (setTable db n t) k = if k = n then some t else getTable db k := by
  induction db with
  | nil =>
    by_cases h : k = n
    · simp [getTable, setTable, h]
    · have h2 : ¬(n = k) := fun hh => h hh.symm
      simp [getTable, setTable, h, h2]
  | cons p rest ih =>
    by_cases hpn : p.1 = n
    · by_cases hkn : k = n
      · subst hkn; simp [setTable, getTable, hpn]
      · have hpk : ¬(p.1 = k) := by rw [hpn]; exact fun h => hkn h.symm
        have hnk : ¬(n = k) := fun hh => hkn hh.symm
        simp [setTable, getTable, hpn, hpk, hkn, hnk]
    · by_cases hpk : p.1 = k
      · have hkn : ¬(k = n) := by rw [← hpk]; exact hpn
        simp [setTable, getTable, hpn, hpk, hkn]
      · simp [setTable, getTable, hpn, hpk, ih]

theorem getTable_applyWrites (ws : List Write) (db : DB) (k : String) :
    getTable (applyWrites ws db) k =
      (lastWriteTo ws k).orElse (fun _ => getTable db k) := by
  induction ws generalizing db with
  | nil => simp [applyWrites, lastWriteTo, Option.orElse]
  | cons w ws ih =>
    show getTable (applyWrites ws (setTable db w.1 w.2)) k = _
    rw [ih]
    by_cases hlast : (lastWriteTo ws k).isSome
    · obtain ⟨t, ht⟩ := Option.isSome_iff_exists.mp hlast
      simp [lastWriteTo, ht, Option.orElse]
    · rw [Option.not_isSome_iff_eq_none] at hlast
      by_cases hwk : w.1 = k
      · simp [lastWriteTo, hlast, hwk, getTable_setTable, Option.orElse]
      · have hkw : ¬(k = w.1) := fun h => hwk h.symm
        simp [lastWriteTo, hlast, hwk, hkw, getTable_setTable, Option.orElse]

/-- The metadata record a writer's first `loadMetadata` leaves in memory:
the persisted record if the sidecar exists, else the empty record the
constructor starts from. -/
def loadedMeta (w : World) : Metadata := w.metaFile.getD Metadata.empty

theorem loadMetadata_from_empty (io : MetricsDataIO) (hro : io.readOnly = false)
    (w : World) :
    io.loadMetadata Metadata.empty w =
      .ok (loadedMeta w, { w with metaFile := some (loadedMeta w) }) := by
  cases w with
  | mk db mf =>
    cases mf <;> simp [ MetricsDataIO.loadMetadata, hro, loadedMeta]

theorem conflictMsg_ne_empty (s : String) : (conflictMsg s == "") = false := by
  rw [beq_eq_false_iff_ne]
  intro h
  have h2 := congrArg String.length h
  simp [conflictMsg, String.length_append] at h2
  exact (by decide :
    ¬(" already exists! Please specify a different output file or set -f flag.".length = 0))
    h2.2

theorem mem_epochsWrites (data : List Epoch) (j i : Nat) (e : Epoch)
    (hi : data[i]? = some e) (n : String) (t : Table) (ht : (n, t) ∈ e) :
    (n ++ ("_epoch:" ++ toString (j + i)), transformTable t) ∈ epochsWrites j data := by
  induction data generalizing j i with
  | nil => simp at hi
  | cons a rest ih =>
    cases i with
    | zero =>
      rw [List.getElem?_cons_zero, Option.some_inj] at hi
      subst hi
      exact List.mem_append_left _
        (List.mem_map.mpr ⟨(n, t), ht, rfl⟩)
    | succ i' =>
      rw [List.getElem?_cons_succ] at hi
      have harith : j + (i' + 1) = (j + 1) + i' := by omega
      rw [harith]
      exact List.mem_append_right _ (ih (j + 1) i' hi)

/-- A concrete writer coordinator used to instantiate theorems. -/
def writerCfg : MetricsDataIO :=
  { dbFile := "out.sqlite", forceOverwrite := false, readOnly := false, timeout := 900 }

/-- A concrete read-only coordinator (the constructor defaults). -/
def readerCfg : MetricsDataIO := { dbFile := "out.sqlite" }

/-- C7: on a coordinator opened read-only, the write-class operations `dump`,
`dumpMetadata` and `loadMetadata` all fail with the read-only-violation
message and produce no state change, while `load` is independent of the
read-only flag and returns every table present in the file under its stored
name. -/
theorem readonly_guard_and_load
    (io : MetricsDataIO) (hro : io.readOnly = true)
    (data : List Epoch) (m : Metadata) (w : World) :
    io.dump data w = .error roMsg ∧
    io.dumpMetadata m w = .error roMsg ∧
    io.loadMetadata m w = .error roMsg ∧
    (∀ b : Bool, MetricsDataIO.load { io with readOnly := b } w = io.load w) ∧
    (∀ tables : DB, w.db = some tables → io.load w = .ok tables) := by
  refine ⟨?_, ?_, ?_, fun b => rfl, ?_⟩
  · simp [ MetricsDataIO.dump, hro]
  · simp [ MetricsDataIO.dumpMetadata, hro]
  · simp [ MetricsDataIO.loadMetadata, hro]
  · intro tables h
    simp [ MetricsDataIO.load, h]

/-- Witness for C7 at a concrete read-only coordinator and state. -/
theorem readonly_guard_and_load_witness :
    readerCfg.readOnly = true ∧
    (readerCfg.dump [] {} = .error roMsg ∧
     readerCfg.dumpMetadata Metadata.empty {} = .error roMsg ∧
     readerCfg.loadMetadata Metadata.empty {} = .error roMsg ∧
     (∀ b : Bool,
        MetricsDataIO.load { readerCfg with readOnly := b } {} = readerCfg.load {}) ∧
     (∀ tables : DB, ({} : World).db = some tables → readerCfg.load {} = .ok tables)) :=
  ⟨rfl, readonly_guard_and_load readerCfg rfl [] Metadata.empty {}⟩

/-- C8: a writer's `loadMetadata` initializes and persists the empty record
when no sidecar file exists yet, leaving the in-memory record equal to the
persisted one, and reads exactly the persisted record when one exists. -/
theorem loadMetadata_initializes
    (io : MetricsDataIO) (hro : io.readOnly = false) (w : World) :
    (w.metaFile = none →
      io.loadMetadata Metadata.empty w =
        .ok (Metadata.empty, { w with metaFile := some Metadata.empty })) ∧
    (∀ r m, w.metaFile = some r → io.loadMetadata m w = .ok (r, w)) := by
  constructor
  · intro h
    simp [ MetricsDataIO.loadMetadata, hro, h]
  · intro r m h
    simp [ MetricsDataIO.loadMetadata, hro, h]

/-- Witness for C8 at a concrete writer coordinator and empty filesystem. -/
theorem loadMetadata_initializes_witness :
    writerCfg.readOnly = false ∧
    ((({} : World).metaFile = none →
      writerCfg.loadMetadata Metadata.empty {} =
        .ok (Metadata.empty, { ({} : World) with metaFile := some Metadata.empty })) ∧
     (∀ r m, ({} : World).metaFile = some r →
        writerCfg.loadMetadata m {} = .ok (r, ({} : World)))) :=
  ⟨rfl, loadMetadata_initializes writerCfg rfl {}⟩

/-- C9: when the per-rank GPU list variable is absent but the rank index (and
job id) are present, `profile` assigns exactly the single GPU id
`SLURM_PROCID % 4`. -/
theorem fallback_gpu_assignment (env : SlurmEnv) (j : String) (p : Int)
    (hg : env.stepGpus = none) (hj : env.jobId = some j) (hp : env.procId = some p) :
    getJobGpuIds env = .ok (j, [p % 4]) := by
  cases env with
  | mk jo sg pi =>
    simp only [SlurmEnv.stepGpus] at hg
    simp only [SlurmEnv.jobId] at hj
    simp only [SlurmEnv.procId] at hp
    subst hg; subst hj; subst hp
    rfl

/-- Witness for C9: rank 6 with no per-rank GPU list is assigned GPU 2. -/
theorem fallback_gpu_assignment_witness :
    ({ jobId := some "4242", stepGpus := none, procId := some 6 } : SlurmEnv).stepGpus
        = none ∧
    getJobGpuIds { jobId := some "4242", stepGpus := none, procId := some 6 } =
      .ok ("4242", [2]) :=
  ⟨rfl, by
    have h := fallback_gpu_assignment
      { jobId := some "4242", stepGpus := none, procId := some 6 } "4242" 6 rfl rfl rfl
    simpa using h⟩

/-- C10: `load` on a coordinator whose database file does not exist fails
with the error message naming the missing file (it neither returns an empty
collection nor creates the file). -/
theorem load_missing_file_error (io : MetricsDataIO) (w : World) (h : w.db = none) :
    io.load w = .error ("Database file " ++ io.dbFile ++ " does not exist!") := by
  simp [ MetricsDataIO.load, h]

/-- Witness for C10 at a concrete coordinator and an absent database file. -/
theorem load_missing_file_error_witness :
    ({} : World).db = none ∧
    writerCfg.load {} =
      .error ("Database file " ++ writerCfg.dbFile ++ " does not exist!") :=
  ⟨rfl, load_missing_file_error writerCfg {} rfl⟩

/-- A concrete single-epoch payload used to instantiate theorems. -/
def sampleEpoch : Epoch := [("gpu", [("ts", [1, 2])])]

/-- The database contents after dumping `[sampleEpoch]` into an empty world. -/
def sampleDumped : World := { db := some [("gpu", [("ts", [1, 2])])] }

/-- C4: `dump` on an empty epoch list writes nothing; on exactly one epoch it
writes each of that epoch's tables under its unsuffixed name; on more than
one epoch it writes every table of epoch `i` under its name suffixed with
`_epoch:<i>` (0-based). -/
theorem dump_epoch_naming (io : MetricsDataIO) (hro : io.readOnly = false)
    (data : List Epoch) (w : World) :
    (data = [] → io.dump data w = .ok w) ∧
    (data ≠ [] → io.dump data w =
      .ok { w with db := some (applyWrites (dumpWrites data) (w.db.getD [])) }) ∧
    (∀ e, data = [e] → ∀ n t, (n, t) ∈ e → (n, transformTable t) ∈ dumpWrites data) ∧
    (1 < data.length → ∀ (i : ℕ) e, data[i]? = some e → ∀ n t, (n, t) ∈ e →
      (n ++ ("_epoch:" ++ toString i), transformTable t) ∈ dumpWrites data) := by
  refine ⟨?_, ?_, ?_, ?_⟩
  · intro h
    subst h
    simp [ MetricsDataIO.dump, hro]
  · intro h
    have hlen : ¬(data.length = 0) := fun hc => h (List.length_eq_zero.mp hc)
    simp [ MetricsDataIO.dump, hro, hlen]
  · intro e hdata n t ht
    subst hdata
    have hmem : (n ++ "", transformTable t) ∈ dumpWrites [e] :=
      List.mem_map.mpr ⟨(n, t), ht, rfl⟩
    simpa using hmem
  · intro hlen i e hi n t ht
    match data, hlen with
    | a :: b :: rest, _ =>
      have h0 : (0 : ℕ) + i = i := Nat.zero_add i
      have := mem_epochsWrites (a :: b :: rest) 0 i e hi n t ht
      rw [h0] at this
      exact this

/-- Witness for C4 at a concrete writer, a one-epoch payload and an empty
filesystem. -/
theorem dump_epoch_naming_witness :
    writerCfg.readOnly = false ∧
    (([sampleEpoch] : List Epoch) = [] → writerCfg.dump [sampleEpoch] {} = .ok {}) ∧
    (([sampleEpoch] : List Epoch) ≠ [] → writerCfg.dump [sampleEpoch] {} =
      .ok { ({} : World) with
            db := some (applyWrites (dumpWrites [sampleEpoch]) ((({} : World)).db.getD [])) }) ∧
    (∀ e, ([sampleEpoch] : List Epoch) = [e] → ∀ n t, (n, t) ∈ e →
      (n, transformTable t) ∈ dumpWrites [sampleEpoch]) ∧
    (1 < ([sampleEpoch] : List Epoch).length →
      ∀ (i : ℕ) e, ([sampleEpoch] : List Epoch)[i]? = some e → ∀ n t, (n, t) ∈ e →
        (n ++ ("_epoch:" ++ toString i), transformTable t) ∈ dumpWrites [sampleEpoch]) :=
  ⟨rfl, dump_epoch_naming writerCfg rfl [sampleEpoch] {}⟩

/-- C5: the stored form of a table rescales the `DEV_GPU_UTIL` column by
1/100 (an integer percentage in 0–100 becomes a rational in `[0,1]`, with
100 ↦ 1 and 0 ↦ 0) and stores every other column numerically unchanged. -/
theorem percentage_normalization (t : Table) (n : String) (c : Column)
    (hmem : (n, c) ∈ t) :
    (n = "DEV_GPU_UTIL" →
      ((n, c.map (fun v => v / 100)) ∈ transformTable t ∧
       ∀ v ∈ c, (∃ k : ℕ, k ≤ 100 ∧ v = (k : ℚ)) → 0 ≤ v / 100 ∧ v / 100 ≤ 1)) ∧
    (n ≠ "DEV_GPU_UTIL" → (n, c) ∈ transformTable t) ∧
    transformColumn "DEV_GPU_UTIL" [100, 0] = [1, 0] := by
  refine ⟨?_, ?_, ?_⟩
  · intro h
    constructor
    · exact List.mem_map.mpr ⟨(n, c), hmem, by simp [transformColumn, h]⟩
    · rintro v _ ⟨k, hk, rfl⟩
      constructor
      · positivity
      · rw [div_le_one (by norm_num)]
        exact_mod_cast hk
  · intro h
    exact List.mem_map.mpr ⟨(n, c), hmem, by simp [transformColumn, h]⟩
  · simp [transformColumn]

/-- Witness for C5 at a concrete table holding a `DEV_GPU_UTIL` column. -/
theorem percentage_normalization_witness :
    (("DEV_GPU_UTIL", ([100, 0] : Column)) ∈
        ([("DEV_GPU_UTIL", [100, 0]), ("ts", [1])] : Table)) ∧
    ((("DEV_GPU_UTIL" : String) = "DEV_GPU_UTIL" →
      (("DEV_GPU_UTIL", ([100, 0] : Column).map (fun v => v / 100)) ∈
          transformTable [("DEV_GPU_UTIL", [100, 0]), ("ts", [1])] ∧
       ∀ v ∈ ([100, 0] : Column), (∃ k : ℕ, k ≤ 100 ∧ v = (k : ℚ)) →
         0 ≤ v / 100 ∧ v / 100 ≤ 1)) ∧
     (("DEV_GPU_UTIL" : String) ≠ "DEV_GPU_UTIL" →
       (("DEV_GPU_UTIL", ([100, 0] : Column)) ∈
          transformTable [("DEV_GPU_UTIL", [100, 0]), ("ts", [1])])) ∧
     transformColumn "DEV_GPU_UTIL" [100, 0] = [1, 0]) :=
  ⟨List.mem_cons_self _ _,
   percentage_normalization [("DEV_GPU_UTIL", [100, 0]), ("ts", [1])]
     "DEV_GPU_UTIL" [100, 0] (List.mem_cons_self _ _)⟩

/-- C6: re-running `dump` with the same epoch list over the same path leaves
exactly the contents of a single dump — every table name resolves to the
same stored table after the second dump as after the first. -/
theorem dump_idempotent (io : MetricsDataIO) (hro : io.readOnly = false)
    (data : List Epoch) (w w1 w2 : World)
    (h1 : io.dump data w = .ok w1) (h2 : io.dump data w1 = .ok w2) :
    ∀ k, getTable (w2.db.getD []) k = getTable (w1.db.getD []) k := by
  intro k
  by_cases hd : data.length = 0
  · simp [ MetricsDataIO.dump, hro, hd] at h1 h2
    rw [← h2]
  · simp [ MetricsDataIO.dump, hro, hd] at h1 h2
    rw [← h2, ← h1]
    simp only [Option.getD_some]
    rw [getTable_applyWrites, getTable_applyWrites]
    cases hls : lastWriteTo (dumpWrites data) k <;> simp [Option.orElse, hls]

/-- Witness for C6: dumping the one-epoch payload twice yields the same
lookup results as dumping it once. -/
theorem dump_idempotent_witness :
    writerCfg.readOnly = false ∧
    writerCfg.dump [sampleEpoch] {} = .ok sampleDumped ∧
    writerCfg.dump [sampleEpoch] sampleDumped = .ok sampleDumped ∧
    ∀ k, getTable (sampleDumped.db.getD []) k = getTable (sampleDumped.db.getD []) k :=
  ⟨rfl, rfl, rfl,
   dump_idempotent writerCfg rfl [sampleEpoch] {} sampleDumped sampleDumped rfl rfl⟩

/-- C1: a writer hitting a pre-existing output file with overwrite not
requested (and no `dbExists`/`dbError` committed yet) fails with the
path-conflict message, persists that message as `dbError`, and every writer
subsequently constructed over the resulting state fails with exactly the
same stored message string. -/
theorem conflict_error_committed_and_replayed
    (io io2 : MetricsDataIO) (w : World)
    (hro : io.readOnly = false) (hro2 : io2.readOnly = false)
    (hfo : io.forceOverwrite = false)
    (hfile : w.db.isSome = true)
    (hex : (loadedMeta w).dbExists = none)
    (herr : (loadedMeta w).dbError = none) :
    (io.init w).error = some (conflictMsg io.dbFile) ∧
    (io.init w).world.metaFile =
      some { loadedMeta w with dbError := some (conflictMsg io.dbFile) } ∧
    (io2.init (io.init w).world).error = some (conflictMsg io.dbFile) := by
  have hinit : io.init w =
      COEOut.mk
        (Metadata.mk (loadedMeta w).dbExists (some (conflictMsg io.dbFile)))
        (World.mk w.db
          (some (Metadata.mk (loadedMeta w).dbExists (some (conflictMsg io.dbFile)))))
        (some (conflictMsg io.dbFile)) := by
    simp only [ MetricsDataIO.init, MetricsDataIO.checkOutfileExists, hro,
      loadMetadata_from_empty io hro w]
    simp [Metadata.dbErrorTruthy, herr, Metadata.getDbExists, hex, hfile, hfo]
  refine ⟨by simp [hinit], by simp [hinit], ?_⟩
  rw [hinit]
  simp only [ MetricsDataIO.init, MetricsDataIO.checkOutfileExists, hro2,
    MetricsDataIO.loadMetadata]
  simp [Metadata.dbErrorTruthy, conflictMsg_ne_empty]

/-- Witness for C1: a pre-existing database file and a fresh metadata
sidecar produce the committed, replayed conflict error. -/
theorem conflict_error_committed_and_replayed_witness :
    writerCfg.readOnly = false ∧ writerCfg.forceOverwrite = false ∧
    ({ db := some [], metaFile := none } : World).db.isSome = true ∧
    (loadedMeta { db := some [], metaFile := none }).dbExists = none ∧
    (loadedMeta { db := some [], metaFile := none }).dbError = none ∧
    ((writerCfg.init { db := some [], metaFile := none }).error =
        some (conflictMsg writerCfg.dbFile) ∧
     (writerCfg.init { db := some [], metaFile := none }).world.metaFile =
        some { loadedMeta { db := some [], metaFile := none } with
               dbError := some (conflictMsg writerCfg.dbFile) } ∧
     (writerCfg.init
        (writerCfg.init { db := some [], metaFile := none }).world).error =
        some (conflictMsg writerCfg.dbFile)) :=
  ⟨rfl, rfl, rfl, rfl, rfl,
   conflict_error_committed_and_replayed writerCfg writerCfg
     { db := some [], metaFile := none } rfl rfl rfl rfl rfl rfl⟩

/-- The filesystem state after the first writer validated an absent output
file and then dumped one epoch into it: the database file now exists, but
the persisted metadata is still the empty record (no `dbExists`). -/
def afterFirstDump : World :=
  { db := some [("gpu", [("ts", [1, 2])])], metaFile := some Metadata.empty }

/-- C2: evaluation of the constructor at the failing input. A writer
validating an absent output file completes without error but leaves
`dbExists` unset both in memory and in the persisted record (the code has no
branch setting it when the file does not exist); consequently, after that
writer's `dump` creates the physical file, a sibling writer constructed for
the same path is spuriously rejected with the path-conflict error even
though no file pre-existed the job. -/
theorem validation_leaves_dbExists_unset :
    (writerCfg.init {}).error = none ∧
    (writerCfg.init {}).world = { metaFile := some Metadata.empty } ∧
    (writerCfg.init {}).metadata.dbExists = none ∧
    writerCfg.dump [sampleEpoch] (writerCfg.init {}).world = .ok afterFirstDump ∧
    (writerCfg.init afterFirstDump).error = some (conflictMsg writerCfg.dbFile) :=
  ⟨rfl, rfl, rfl, rfl, rfl⟩

/-- A writer coordinator constructed with `timeout = 0`. -/
def zeroTimeoutCfg : MetricsDataIO :=
  { dbFile := "out.sqlite", forceOverwrite := false, readOnly := false, timeout := 0 }

/-- C3 counterexample: the constructor's `timeout` argument does not reach
the file lock — the lock is built with the filelock default of `-1` (wait
forever), so with `timeout = 0` an acquire on an already-held lock blocks
forever instead of failing with a lock-timeout error. -/
theorem lock_timeout_claim_false :
    zeroTimeoutCfg.timeout = 0 ∧
    (zeroTimeoutCfg.mkLock).timeout = -1 ∧
    FileLock.acquireOutcome zeroTimeoutCfg.mkLock true = AcquireOutcome.blocksForever ∧
    FileLock.acquireOutcome zeroTimeoutCfg.mkLock true ≠ AcquireOutcome.lockTimeout :=
  ⟨rfl, rfl, rfl, by decide⟩

/-- C3 amended: for every coordinator, the path-scoped lock is constructed
with the filelock library default timeout `-1`, so an acquisition succeeds
immediately on a free lock and blocks forever (never raising a lock-timeout
error) on a lock held by another process — the coordinator's `timeout`
parameter does not bound lock acquisition. -/
theorem storage_lock_unbounded (io : MetricsDataIO) :
    (io.mkLock).timeout = -1 ∧
    FileLock.acquireOutcome io.mkLock true = AcquireOutcome.blocksForever ∧
    FileLock.acquireOutcome io.mkLock false = AcquireOutcome.acquired :=
  ⟨rfl, rfl, rfl⟩

end AGI
